import Mathlib

/-! Shallow embedding of the easy-cam camera controller (src/lib.rs).

The source is a Bevy plugin with four per-frame systems:
pan_orbit_camera, center_selection, ui_system and update_gizmo_space.
Scalars (f32 in the source) are modelled as rationals.  The external math
library (glam) supplies vector, quaternion and matrix operations; those are
reproduced here from glam's formulas over the rational scalars.  The
transcendental pieces (PI, sin_cos inside Quat::from_rotation_x/y, the
square-root branches inside Quat::from_mat3/from_mat4) have no exact
rational counterpart; they are kept as explicit parameters of the embedded
functions, so every theorem quantifies over them. -/

structure Vec2 where
  x : ℚ
  y : ℚ
deriving DecidableEq

structure Vec3 where
  x : ℚ
  y : ℚ
  z : ℚ
deriving DecidableEq

structure Quat where
  w : ℚ
  x : ℚ
  y : ℚ
  z : ℚ
deriving DecidableEq

def Vec2.zero : Vec2 := ⟨0, 0⟩

def Vec2.add (a b : Vec2) : Vec2 := ⟨a.x + b.x, a.y + b.y⟩

def Vec2.lengthSquared (a : Vec2) : ℚ := a.x * a.x + a.y * a.y

def Vec3.zero : Vec3 := ⟨0, 0, 0⟩

def Vec3.unitX : Vec3 := ⟨1, 0, 0⟩

def Vec3.unitY : Vec3 := ⟨0, 1, 0⟩

def Vec3.unitZ : Vec3 := ⟨0, 0, 1⟩

def Vec3.add (a b : Vec3) : Vec3 := ⟨a.x + b.x, a.y + b.y, a.z + b.z⟩

def Vec3.sub (a b : Vec3) : Vec3 := ⟨a.x - b.x, a.y - b.y, a.z - b.z⟩

def Vec3.smul (a : Vec3) (s : ℚ) : Vec3 := ⟨a.x * s, a.y * s, a.z * s⟩

def Vec3.divScalar (a : Vec3) (s : ℚ) : Vec3 := ⟨a.x / s, a.y / s, a.z / s⟩

def Vec3.dot (a b : Vec3) : ℚ := a.x * b.x + a.y * b.y + a.z * b.z

def Vec3.cross (a b : Vec3) : Vec3 :=
  ⟨a.y * b.z - a.z * b.y, a.z * b.x - a.x * b.z, a.x * b.y - a.y * b.x⟩

def Vec3.lengthSquared (a : Vec3) : ℚ := Vec3.dot a a

/-- Largest k at most the first argument with k * k at most n (helper for
the square-root model, structurally recursive so concrete values reduce). -/
def natSqrtStep : ℕ → ℕ → ℕ
  | 0, _ => 0
  | k + 1, n => if (k + 1) * (k + 1) ≤ n then k + 1 else natSqrtStep k n

/-- Floor integer square root. -/
def natSqrtFn (n : ℕ) : ℕ := natSqrtStep n n

/-- Model of the f32 square root used by Vec3::length.  It is exact on
rationals whose numerator and denominator are perfect squares (the only
points at which concrete results are claimed), and nonnegative everywhere,
like the real square root. -/
def ratSqrt (q : ℚ) : ℚ := (natSqrtFn q.num.toNat : ℚ) / (natSqrtFn q.den : ℚ)

def Vec3.length (a : Vec3) : ℚ := ratSqrt a.lengthSquared

/-- Hamilton product, glam's Quat::mul_quat. -/
def Quat.mul (a b : Quat) : Quat :=
  ⟨a.w * b.w - a.x * b.x - a.y * b.y - a.z * b.z,
   a.w * b.x + a.x * b.w + a.y * b.z - a.z * b.y,
   a.w * b.y - a.x * b.z + a.y * b.w + a.z * b.x,
   a.w * b.z + a.x * b.y - a.y * b.x + a.z * b.w⟩

def Quat.IDENTITY : Quat := ⟨1, 0, 0, 0⟩

/-- glam's Quat::mul_vec3: v * (w^2 - b.b) + b * (v.b * 2) + (b x v) * (w * 2)
with b the vector part. -/
def Quat.mulVec3 (q : Quat) (v : Vec3) : Vec3 :=
  let b : Vec3 := ⟨q.x, q.y, q.z⟩
  let b2 : ℚ := Vec3.dot b b
  Vec3.add (Vec3.add (v.smul (q.w * q.w - b2)) (b.smul (Vec3.dot v b * 2)))
    ((Vec3.cross b v).smul (q.w * 2))

structure Mat3 where
  xAxis : Vec3
  yAxis : Vec3
  zAxis : Vec3
deriving DecidableEq

def Mat3.fromCols (a b c : Vec3) : Mat3 := ⟨a, b, c⟩

/-- glam's Mat3::from_quat. -/
def Mat3.fromQuat (q : Quat) : Mat3 :=
  let x2 := q.x + q.x
  let y2 := q.y + q.y
  let z2 := q.z + q.z
  let xx := q.x * x2
  let xy := q.x * y2
  let xz := q.x * z2
  let yy := q.y * y2
  let yz := q.y * z2
  let zz := q.z * z2
  let wx := q.w * x2
  let wy := q.w * y2
  let wz := q.w * z2
  ⟨⟨1 - (yy + zz), xy + wz, xz - wy⟩,
   ⟨xy - wz, 1 - (xx + zz), yz + wx⟩,
   ⟨xz + wy, yz - wx, 1 - (xx + yy)⟩⟩

def Mat3.mulVec3 (m : Mat3) (v : Vec3) : Vec3 :=
  Vec3.add (Vec3.add (m.xAxis.smul v.x) (m.yAxis.smul v.y)) (m.zAxis.smul v.z)

/-- The transcendental scalar functions the engine uses
(std::f32::consts::PI, and the sin_cos call inside glam's
Quat::from_rotation_x / from_rotation_y), kept abstract because their exact
values are irrational; every theorem quantifies over this model. -/
structure TrigModel where
  piv : ℚ
  sinv : ℚ → ℚ
  cosv : ℚ → ℚ

/-- glam's Quat::from_rotation_x: (sin, cos) of half the angle, vector part
on the x axis. -/
def Quat.fromRotationX (T : TrigModel) (angle : ℚ) : Quat :=
  ⟨T.cosv (angle * (1 / 2)), T.sinv (angle * (1 / 2)), 0, 0⟩

/-- glam's Quat::from_rotation_y: (sin, cos) of half the angle, vector part
on the y axis. -/
def Quat.fromRotationY (T : TrigModel) (angle : ℚ) : Quat :=
  ⟨T.cosv (angle * (1 / 2)), 0, T.sinv (angle * (1 / 2)), 0⟩

/-- bevy Transform: only the fields this module touches. -/
structure Transform where
  translation : Vec3
  rotation : Quat
deriving DecidableEq

/-- The PanOrbitCamera component from src/lib.rs. -/
structure PanOrbitCamera where
  focus : Vec3
  radius : ℚ
  upside_down : Bool
deriving DecidableEq

def PanOrbitCamera.default : PanOrbitCamera := ⟨Vec3.zero, 5, false⟩

structure PerspectiveProjection where
  fov : ℚ
  aspect : ℚ
deriving DecidableEq

inductive Projection where
  | Perspective : PerspectiveProjection → Projection
  | Orthographic : Projection
deriving DecidableEq

/- ------------------------------------------------------------------
   center_selection (src/lib.rs lines 73-96)
   ------------------------------------------------------------------ -/

/-- selection.iter().any(|(_, s)| s.selected()): an entry is a
(Transform, Selection) pair, modelled as Transform paired with the
selected flag. -/
def anySelected (selection : List (Transform × Bool)) : Bool :=
  selection.any (fun e => e.2)

def countStep (n : ℕ) (e : Transform × Bool) : ℕ :=
  if e.2 then n + 1 else n

/-- The point_count accumulated by the loop in center_selection. -/
def countSelected (selection : List (Transform × Bool)) : ℕ :=
  selection.foldl countStep 0

def totalStep (acc : Vec3) (e : Transform × Bool) : Vec3 :=
  if e.2 then Vec3.add acc e.1.translation else acc

/-- The running total of selected translations in center_selection. -/
def totalSelected (selection : List (Transform × Bool)) : Vec3 :=
  selection.foldl totalStep Vec3.zero

/-- total / point_count as f32 (componentwise). -/
def centroid (selection : List (Transform × Bool)) : Vec3 :=
  Vec3.divScalar (totalSelected selection) ((countSelected selection : ℚ))

/-- center_selection: keyJustReleased models
keyboard_input.just_released(KeyCode::Period); camera is the single
PanOrbitCamera with its Transform (camera.single_mut()). -/
def center_selection (keyJustReleased : Bool)
    (selection : List (Transform × Bool))
    (camera : PanOrbitCamera) (cameraTransform : Transform) : PanOrbitCamera :=
  if !(anySelected selection) then camera
  else if keyJustReleased then
    let center := centroid selection
    { camera with
      radius := Vec3.length (Vec3.sub cameraTransform.translation center),
      focus := center }
  else camera

/- ------------------------------------------------------------------
   pan_orbit_camera (src/lib.rs lines 169-278)
   ------------------------------------------------------------------ -/

/-- The per-frame input read by pan_orbit_camera.  orbit_button and
pan_button are both MouseButton::Middle in the source, so a single pressed
flag models input_mouse.pressed for either. -/
structure FrameInput where
  motionEvents : List Vec2
  scrollEvents : List ℚ
  middlePressed : Bool
  panKeyLeft : Bool
  panKeyRight : Bool
  middleJustPressed : Bool
  middleJustReleased : Bool

def sumMotion (inp : FrameInput) : Vec2 :=
  inp.motionEvents.foldl Vec2.add Vec2.zero

/-- input_mouse.pressed(orbit_button) and no pan-modifier key held. -/
def orbitCond (inp : FrameInput) : Bool :=
  inp.middlePressed && !(inp.panKeyRight || inp.panKeyLeft)

/-- input_mouse.pressed(pan_button) and a pan-modifier key held. -/
def panCond (inp : FrameInput) : Bool :=
  inp.middlePressed && (inp.panKeyRight || inp.panKeyLeft)

/-- rotation_move accumulated in the first branch of the input gather. -/
def gatherRotationMove (inp : FrameInput) : Vec2 :=
  if orbitCond inp then sumMotion inp else Vec2.zero

/-- pan accumulated in the else-if branch of the input gather. -/
def gatherPan (inp : FrameInput) : Vec2 :=
  if !(orbitCond inp) && panCond inp then sumMotion inp else Vec2.zero

def gatherScroll (inp : FrameInput) : ℚ :=
  inp.scrollEvents.foldl (fun a b => a + b) 0

def orbitButtonChanged (inp : FrameInput) : Bool :=
  inp.middleJustReleased || inp.middleJustPressed

/-- Lines 221-226: recompute upside_down only when the orbit button changed
state this frame, as (rotation * Vec3::Y).y <= 0. -/
def recomputeFlag (chg : Bool) (rig : PanOrbitCamera) (tf : Transform) :
    PanOrbitCamera :=
  if chg then
    { rig with upside_down := decide ((Quat.mulVec3 tf.rotation Vec3.unitY).y ≤ 0) }
  else rig

/-- Lines 229-244, the orbit branch: yaw about the global y axis on the
left, pitch about the local x axis on the right. -/
def orbitUpdate (T : TrigModel) (winW winH : ℚ) (rotationMove : Vec2)
    (rig : PanOrbitCamera) (tf : Transform) : Transform :=
  let delta := rotationMove.x / winW * T.piv * 2
  let deltaX := if rig.upside_down then -delta else delta
  let deltaY := rotationMove.y / winH * T.piv
  let yaw := Quat.fromRotationY T (-deltaX)
  let pitch := Quat.fromRotationX T (-deltaY)
  { tf with rotation := Quat.mul (Quat.mul yaw tf.rotation) pitch }

/-- Lines 246-261, the pan branch: FOV/aspect scaling for perspective
projections, projection onto local axes with x sign inverted, scaled by
radius, added to focus. -/
def panUpdate (winW winH : ℚ) (pan : Vec2) (proj : Projection)
    (rig : PanOrbitCamera) (tf : Transform) : PanOrbitCamera :=
  let pan1 : Vec2 :=
    match proj with
    | .Perspective p => ⟨pan.x * (p.fov * p.aspect) / winW, pan.y * p.fov / winH⟩
    | .Orthographic => pan
  let right := Vec3.smul (Quat.mulVec3 tf.rotation Vec3.unitX) (-pan1.x)
  let up := Vec3.smul (Quat.mulVec3 tf.rotation Vec3.unitY) pan1.y
  let translation := Vec3.smul (Vec3.add right up) rig.radius
  { rig with focus := Vec3.add rig.focus translation }

/-- Lines 262-266, the zoom branch: multiplicative decay then clamp to the
0.05 floor via f32::max. -/
def zoomUpdate (scroll : ℚ) (rig : PanOrbitCamera) : PanOrbitCamera :=
  let r1 := rig.radius - scroll * rig.radius * (2 / 1000)
  { rig with radius := max r1 (1 / 20) }

/-- Lines 269-276: whenever any branch fired, rederive the translation as
focus + rotation-matrix * (0, 0, radius). -/
def rederivePosition (rig : PanOrbitCamera) (tf : Transform) : Transform :=
  { tf with
    translation :=
      Vec3.add rig.focus ((Mat3.fromQuat tf.rotation).mulVec3 ⟨0, 0, rig.radius⟩) }

/-- The body of the query loop (lines 220-277) for one rig.  The branch
structure mirrors the source: flag recompute first, then the
orbit / pan / zoom if-else chain, then position rederivation when any
branch fired. -/
def panOrbitRigStep (T : TrigModel) (winW winH : ℚ)
    (rotationMove pan : Vec2) (scroll : ℚ) (chg : Bool)
    (rig : PanOrbitCamera) (tf : Transform) (proj : Projection) :
    PanOrbitCamera × Transform :=
  let rigU := recomputeFlag chg rig tf
  if rotationMove.lengthSquared > 0 then
    let tf1 := orbitUpdate T winW winH rotationMove rigU tf
    (rigU, rederivePosition rigU tf1)
  else if pan.lengthSquared > 0 then
    let rig1 := panUpdate winW winH pan proj rigU tf
    (rig1, rederivePosition rig1 tf)
  else if |scroll| > 0 then
    let rig1 := zoomUpdate scroll rigU
    (rig1, rederivePosition rig1 tf)
  else (rigU, tf)

/-- The whole system: window is the primary-window query result (none means
get_single failed: error logged and every rig left untouched). -/
def pan_orbit_camera (T : TrigModel) (window : Option (ℚ × ℚ))
    (inp : FrameInput)
    (rigs : List (PanOrbitCamera × Transform × Projection)) :
    List (PanOrbitCamera × Transform × Projection) :=
  match window with
  | none => rigs
  | some (w, h) =>
    let rotationMove := gatherRotationMove inp
    let pan := gatherPan inp
    let scroll := gatherScroll inp
    let chg := orbitButtonChanged inp
    rigs.map (fun e =>
      let s := panOrbitRigStep T w h rotationMove pan scroll chg e.1 e.2.1 e.2.2
      (s.1, s.2, e.2.2))

/- ------------------------------------------------------------------
   ui_system (src/lib.rs lines 129-167)
   ------------------------------------------------------------------ -/

inductive GizmoSpace where
  | Global
  | Local
  | Screen
deriving DecidableEq

inductive TransformOrScale where
  | Transform
  | Scale
  | Neither
deriving DecidableEq

structure CameraData where
  transform_orientation : GizmoSpace
  ui_show_transform_or_scale : TransformOrScale
deriving DecidableEq

/-- bevy_transform_gizmo's GizmoPartsEnabled resource. -/
structure GizmoPartsEnabled where
  translate_arrows : Bool
  scale : Bool
  rotate : Bool
  translate_planes : Bool
deriving DecidableEq

/-- Modelled from the spec: the immediate-mode UI host.  egui widgets
mutate their bound values in place during Window::show; a frame's widget
pass is modelled by the values each control holds once the widgets have
processed this frame's user interaction (equal to the prior values when
the user touched nothing). -/
structure UiInteraction where
  selected : GizmoSpace
  showing : TransformOrScale
  rotate : Bool
  translate_planes : Bool

/-- ui_system: derives translate_arrows / scale from the handle-mode
radio selection, leaves rotate / translate_planes to their checkbox
bindings, and writes the two selectors back into CameraData. -/
def ui_system (data : CameraData) (enabled : GizmoPartsEnabled)
    (ui : UiInteraction) : CameraData × GizmoPartsEnabled :=
  let showing := ui.showing
  let enabled1 :=
    match showing with
    | .Transform => { enabled with translate_arrows := true, scale := false }
    | .Scale => { enabled with translate_arrows := false, scale := true }
    | .Neither => { enabled with translate_arrows := false, scale := false }
  let enabled2 := { enabled1 with rotate := ui.rotate, translate_planes := ui.translate_planes }
  ({ data with ui_show_transform_or_scale := showing, transform_orientation := ui.selected },
   enabled2)

/- ------------------------------------------------------------------
   update_gizmo_space (src/lib.rs lines 290-337)
   ------------------------------------------------------------------ -/

/-- bevy_transform_gizmo's GizmoSettings resource (the field this module
writes). -/
structure GizmoSettings where
  alignment_rotation : Quat
deriving DecidableEq

/-- Query::get_single: some iff the query matches exactly one entity. -/
def getSingle (l : List Transform) : Option Transform :=
  match l with
  | [t] => some t
  | _ => none

/-- The first selected entry, as produced by the filter_map / take(1)
iterator chain over the selection query. -/
def firstSelected (selection : List (Transform × Bool)) : Option Transform :=
  (selection.filter (fun e => e.2)).head?.map (fun e => e.1)

/-- update_gizmo_space.  The two quaternion extractions
(Quat::from_mat4(compute_matrix) in the Local arm, Quat::from_mat3 in the
Screen arm) involve irrational square roots, so they are parameters; no
claim depends on their internals, only on what they are applied to. -/
def update_gizmo_space (qm4 : Transform → Quat) (qm3 : Mat3 → Quat)
    (mode : GizmoSpace) (selection : List (Transform × Bool))
    (gizmo : GizmoSettings) (cameras : List Transform) : GizmoSettings :=
  match mode with
  | .Local =>
    match firstSelected selection with
    | some t => { gizmo with alignment_rotation := qm4 t }
    | none => gizmo
  | .Global =>
    match firstSelected selection with
    | some _ => { gizmo with alignment_rotation := Quat.IDENTITY }
    | none => gizmo
  | .Screen =>
    match getSingle cameras with
    | none => gizmo
    | some camTf =>
      let direction := Quat.mulVec3 camTf.rotation Vec3.unitZ
      let localY := Quat.mulVec3 camTf.rotation Vec3.unitY
      let r := qm3 (Mat3.fromCols (Vec3.cross direction localY) direction localY)
      match firstSelected selection with
      | some _ => { gizmo with alignment_rotation := r }
      | none => gizmo

/- ------------------------------------------------------------------
   Concrete instances used by witnesses and counterexamples
   ------------------------------------------------------------------ -/

def demoTrig : TrigModel := ⟨3, fun q => q, fun q => q⟩

def demoA : Transform := ⟨⟨0, 0, 0⟩, Quat.IDENTITY⟩

def demoB : Transform := ⟨⟨2, 0, 0⟩, Quat.IDENTITY⟩

def demoCameraTf : Transform := ⟨⟨1, 0, 5⟩, Quat.IDENTITY⟩

def demoRig : PanOrbitCamera := PanOrbitCamera.default

def demoQm4 : Transform → Quat := fun _ => Quat.IDENTITY

def demoQm3 : Mat3 → Quat := fun _ => Quat.IDENTITY

def demoInput : FrameInput := ⟨[⟨1, 0⟩], [], true, false, false, false, false⟩

/- ------------------------------------------------------------------
   Helper lemmas
   ------------------------------------------------------------------ -/

lemma foldl_countStep_ge (l : List (Transform × Bool)) :
    ∀ n : ℕ, n ≤ l.foldl countStep n := by
  induction l with
  | nil => intro n; simp
  | cons e t ih =>
    intro n
    refine le_trans ?_ (ih (countStep n e))
    unfold countStep
    split <;> omega

lemma one_le_foldl_countStep (l : List (Transform × Bool)) :
    ∀ n : ℕ, anySelected l = true → n + 1 ≤ l.foldl countStep n := by
  induction l with
  | nil => intro n h; simp [anySelected] at h
  | cons e t ih =>
    intro n h
    by_cases he : e.2
    · have : countStep n e = n + 1 := by simp [countStep, he]
      simpa [List.foldl, this] using foldl_countStep_ge t (n + 1)
    · have he2 : e.2 = false := by simpa using he
      have ht : anySelected t = true := by
        have hc : (e.2 || anySelected t) = true := h
        rw [he2] at hc
        simpa using hc
      simpa [List.foldl, countStep, he2] using ih n ht

lemma step_upside (T : TrigModel) (winW winH : ℚ) (rm pan : Vec2)
    (scroll : ℚ) (chg : Bool) (rig : PanOrbitCamera) (tf : Transform)
    (proj : Projection) :
    (panOrbitRigStep T winW winH rm pan scroll chg rig tf proj).1.upside_down
      = (recomputeFlag chg rig tf).upside_down := by
  simp only [panOrbitRigStep]
  split_ifs <;> simp [panUpdate, zoomUpdate]

/- ------------------------------------------------------------------
   Claim theorems
   ------------------------------------------------------------------ -/

/-- C1 (amended).  The claim asserted every radius update of the module ends
at a value at least 0.05.  That holds for the zoom branch of the engine,
which clamps with f32::max against the 0.05 floor; but center_selection
performs no clamp: it sets radius to the distance from the camera to the
selection centroid, which is nonnegative yet can be below 0.05 (it is 0 when
the camera sits at the centroid, see the counterexample). -/
theorem radius_updates_amended :
    (∀ (T : TrigModel) (winW winH : ℚ) (rm pan : Vec2) (scroll : ℚ) (chg : Bool)
        (rig : PanOrbitCamera) (tf : Transform) (proj : Projection),
        ¬(rm.lengthSquared > 0) → ¬(pan.lengthSquared > 0) → |scroll| > 0 →
          (1 / 20 : ℚ) ≤ (panOrbitRigStep T winW winH rm pan scroll chg rig tf proj).1.radius)
    ∧ (∀ (sel : List (Transform × Bool)) (rig : PanOrbitCamera) (camT : Transform),
        anySelected sel = true →
          (center_selection true sel rig camT).radius
              = ratSqrt (Vec3.lengthSquared (Vec3.sub camT.translation (centroid sel)))
          ∧ 0 ≤ (center_selection true sel rig camT).radius) := by
  constructor
  · intro T winW winH rm pan scroll chg rig tf proj h1 h2 h3
    simp [panOrbitRigStep, h1, h2, h3, zoomUpdate]
  · intro sel rig camT h
    have hr : (center_selection true sel rig camT).radius
        = ratSqrt (Vec3.lengthSquared (Vec3.sub camT.translation (centroid sel))) := by
      simp [center_selection, h, Vec3.length]
    refine ⟨hr, ?_⟩
    rw [hr]
    exact div_nonneg (Nat.cast_nonneg _) (Nat.cast_nonneg _)

/-- C1 witness: the zoom clamp at a concrete input (scroll 1), and a
concrete recenter whose radius is nonnegative. -/
theorem radius_updates_amended_witness :
    (1 / 20 : ℚ)
      ≤ (panOrbitRigStep demoTrig 2 1 ⟨0, 0⟩ ⟨0, 0⟩ 1 false demoRig demoCameraTf
          .Orthographic).1.radius
    ∧ 0 ≤ (center_selection true [(demoA, true)] demoRig demoCameraTf).radius :=
  ⟨radius_updates_amended.1 demoTrig 2 1 ⟨0, 0⟩ ⟨0, 0⟩ 1 false demoRig demoCameraTf
      .Orthographic (by norm_num [Vec2.lengthSquared]) (by norm_num [Vec2.lengthSquared])
      (by norm_num),
   (radius_updates_amended.2 [(demoA, true)] demoRig demoCameraTf rfl).2⟩

/-- C1 counterexample: with one selected object at (1, 0, 5) and the camera
translation also at (1, 0, 5), the recenter trigger sets radius to the
camera-to-centroid distance 0, which is below the 0.05 floor the claim
asserts for every radius update of the module. -/
theorem radius_floor_counterexample :
    (center_selection true [(demoCameraTf, true)] demoRig demoCameraTf).radius = 0
    ∧ ¬((1 / 20 : ℚ)
        ≤ (center_selection true [(demoCameraTf, true)] demoRig demoCameraTf).radius) := by
  have h : (center_selection true [(demoCameraTf, true)] demoRig demoCameraTf).radius = 0 := by
    norm_num [center_selection, anySelected, centroid, totalSelected, totalStep,
      countSelected, countStep, Vec3.divScalar, Vec3.zero, Vec3.add, Vec3.sub,
      Vec3.length, Vec3.lengthSquared, Vec3.dot, demoCameraTf, ratSqrt,
      show natSqrtFn 1 = 1 from by decide, show natSqrtFn 0 = 0 from by decide,
      show Int.toNat 0 = 0 from by decide]
  exact ⟨h, by rw [h]; norm_num⟩

/-- C2.  At most one of orbit / pan / zoom applies per frame, first-match
wins in that order: when the orbit branch fires, the pan and scroll inputs
are irrelevant to the result and focus / radius are untouched; when the pan
branch fires, scroll is irrelevant and rotation / radius are untouched; when
neither fires, rotation and focus are untouched (the zoom branch only
touches radius and the rederived translation).  Moreover the input gather is
already exclusive: a nonzero rotation accumulator forces a zero pan
accumulator. -/
theorem one_action_per_frame (T : TrigModel) (winW winH : ℚ) (rm pan : Vec2)
    (scroll : ℚ) (chg : Bool) (rig : PanOrbitCamera) (tf : Transform)
    (proj : Projection) :
    (rm.lengthSquared > 0 →
      panOrbitRigStep T winW winH rm pan scroll chg rig tf proj
          = panOrbitRigStep T winW winH rm Vec2.zero 0 chg rig tf proj
      ∧ (panOrbitRigStep T winW winH rm pan scroll chg rig tf proj).1.focus
          = (recomputeFlag chg rig tf).focus
      ∧ (panOrbitRigStep T winW winH rm pan scroll chg rig tf proj).1.radius
          = (recomputeFlag chg rig tf).radius)
    ∧ (¬(rm.lengthSquared > 0) → pan.lengthSquared > 0 →
      panOrbitRigStep T winW winH rm pan scroll chg rig tf proj
          = panOrbitRigStep T winW winH rm pan 0 chg rig tf proj
      ∧ (panOrbitRigStep T winW winH rm pan scroll chg rig tf proj).2.rotation
          = tf.rotation
      ∧ (panOrbitRigStep T winW winH rm pan scroll chg rig tf proj).1.radius
          = (recomputeFlag chg rig tf).radius)
    ∧ (¬(rm.lengthSquared > 0) → ¬(pan.lengthSquared > 0) →
      (panOrbitRigStep T winW winH rm pan scroll chg rig tf proj).2.rotation
          = tf.rotation
      ∧ (panOrbitRigStep T winW winH rm pan scroll chg rig tf proj).1.focus
          = (recomputeFlag chg rig tf).focus)
    ∧ (∀ inp : FrameInput,
        gatherRotationMove inp ≠ Vec2.zero → gatherPan inp = Vec2.zero) := by
  refine ⟨?_, ?_, ?_, ?_⟩
  · intro h1
    refine ⟨?_, ?_, ?_⟩ <;> simp [panOrbitRigStep, h1, rederivePosition]
  · intro h1 h2
    refine ⟨?_, ?_, ?_⟩ <;>
      simp [panOrbitRigStep, h1, h2, rederivePosition, panUpdate]
  · intro h1 h2
    constructor <;> by_cases h3 : |scroll| > 0 <;>
      simp [panOrbitRigStep, h1, h2, h3, rederivePosition, zoomUpdate]
  · intro inp h
    by_cases hc : orbitCond inp
    · simp [gatherPan, hc]
    · exact absurd (by simp [gatherRotationMove, hc]) h

/-- C2 witness: with nonzero rotation input, concrete pan and scroll inputs
do not affect the step, and a concrete frame input with the orbit condition
held yields a zero pan accumulator. -/
theorem one_action_per_frame_witness :
    panOrbitRigStep demoTrig 2 1 ⟨1, 0⟩ ⟨3, 4⟩ 7 false demoRig demoCameraTf .Orthographic
        = panOrbitRigStep demoTrig 2 1 ⟨1, 0⟩ Vec2.zero 0 false demoRig demoCameraTf
            .Orthographic
    ∧ gatherPan demoInput = Vec2.zero :=
  ⟨((one_action_per_frame demoTrig 2 1 ⟨1, 0⟩ ⟨3, 4⟩ 7 false demoRig demoCameraTf
      .Orthographic).1 (by norm_num [Vec2.lengthSquared])).1,
   (one_action_per_frame demoTrig 2 1 ⟨1, 0⟩ ⟨3, 4⟩ 7 false demoRig demoCameraTf
      .Orthographic).2.2.2 demoInput
     (by norm_num [gatherRotationMove, orbitCond, sumMotion, demoInput, Vec2.add,
        Vec2.zero])⟩

/-- C3.  When the orbit branch fires, the new orientation is
yaw * old * pitch: yaw is from_rotation_y of the negated horizontal delta
(mouse x over viewport width, times two pi, sign-inverted when the
upside_down flag in force this frame is set) composed on the left, and
pitch is from_rotation_x of the negated vertical delta (mouse y over
viewport height, times pi) composed on the right of the old orientation. -/
theorem orbit_composes_yaw_then_pitch (T : TrigModel) (winW winH : ℚ)
    (rm pan : Vec2) (scroll : ℚ) (chg : Bool) (rig : PanOrbitCamera)
    (tf : Transform) (proj : Projection) (h : rm.lengthSquared > 0) :
    (panOrbitRigStep T winW winH rm pan scroll chg rig tf proj).2.rotation
      = Quat.mul
          (Quat.mul
            (Quat.fromRotationY T
              (-(if (recomputeFlag chg rig tf).upside_down
                  then -(rm.x / winW * T.piv * 2)
                  else rm.x / winW * T.piv * 2)))
            tf.rotation)
          (Quat.fromRotationX T (-(rm.y / winH * T.piv))) := by
  simp [panOrbitRigStep, h, rederivePosition, orbitUpdate]

/-- C3 witness: the composition at a concrete orbit input. -/
theorem orbit_composes_yaw_then_pitch_witness :
    (panOrbitRigStep demoTrig 2 1 ⟨1, 1⟩ Vec2.zero 0 false demoRig demoCameraTf
        .Orthographic).2.rotation
      = Quat.mul
          (Quat.mul
            (Quat.fromRotationY demoTrig
              (-(if (recomputeFlag false demoRig demoCameraTf).upside_down
                  then -((1 : ℚ) / 2 * demoTrig.piv * 2)
                  else (1 : ℚ) / 2 * demoTrig.piv * 2)))
            demoCameraTf.rotation)
          (Quat.fromRotationX demoTrig (-((1 : ℚ) / 1 * demoTrig.piv))) :=
  orbit_composes_yaw_then_pitch demoTrig 2 1 ⟨1, 1⟩ Vec2.zero 0 false demoRig demoCameraTf
    .Orthographic (by norm_num [Vec2.lengthSquared])

/-- C4.  Whenever any of the three branches fired (orbit, pan, or zoom
alone), the resulting camera translation equals
focus + rotation-matrix * (0, 0, radius) computed from the post-update
focus, orientation and radius of the same step. -/
theorem position_rederivation (T : TrigModel) (winW winH : ℚ)
    (rm pan : Vec2) (scroll : ℚ) (chg : Bool) (rig : PanOrbitCamera)
    (tf : Transform) (proj : Projection)
    (h : rm.lengthSquared > 0 ∨ pan.lengthSquared > 0 ∨ |scroll| > 0) :
    (panOrbitRigStep T winW winH rm pan scroll chg rig tf proj).2.translation
      = Vec3.add (panOrbitRigStep T winW winH rm pan scroll chg rig tf proj).1.focus
          ((Mat3.fromQuat
              (panOrbitRigStep T winW winH rm pan scroll chg rig tf proj).2.rotation).mulVec3
            ⟨0, 0, (panOrbitRigStep T winW winH rm pan scroll chg rig tf proj).1.radius⟩) := by
  by_cases h1 : rm.lengthSquared > 0
  · simp [panOrbitRigStep, h1, rederivePosition]
  · by_cases h2 : pan.lengthSquared > 0
    · simp [panOrbitRigStep, h1, h2, rederivePosition, panUpdate]
    · have h3 : |scroll| > 0 := by tauto
      simp [panOrbitRigStep, h1, h2, h3, rederivePosition, zoomUpdate]

/-- C4 witness: the rederivation after a zoom-only frame (scroll 1). -/
theorem position_rederivation_witness :
    (panOrbitRigStep demoTrig 2 1 ⟨0, 0⟩ ⟨0, 0⟩ 1 false demoRig demoCameraTf
        .Orthographic).2.translation
      = Vec3.add
          (panOrbitRigStep demoTrig 2 1 ⟨0, 0⟩ ⟨0, 0⟩ 1 false demoRig demoCameraTf
            .Orthographic).1.focus
          ((Mat3.fromQuat
              (panOrbitRigStep demoTrig 2 1 ⟨0, 0⟩ ⟨0, 0⟩ 1 false demoRig demoCameraTf
                .Orthographic).2.rotation).mulVec3
            ⟨0, 0,
              (panOrbitRigStep demoTrig 2 1 ⟨0, 0⟩ ⟨0, 0⟩ 1 false demoRig demoCameraTf
                .Orthographic).1.radius⟩) :=
  position_rederivation demoTrig 2 1 ⟨0, 0⟩ ⟨0, 0⟩ 1 false demoRig demoCameraTf
    .Orthographic (Or.inr (Or.inr (by norm_num)))

/-- C5.  center_selection is a silent no-op with no selection; on the
recenter trigger with a selection, focus becomes the centroid (mean of the
selected translations) and radius the distance from the camera translation
to it; at the concrete instance with selection at (0,0,0) and (2,0,0) and
camera at (1,0,5), the result is focus (1,0,0) and radius 5. -/
theorem center_selection_spec :
    (∀ (k : Bool) (sel : List (Transform × Bool)) (rig : PanOrbitCamera) (camT : Transform),
        anySelected sel = false → center_selection k sel rig camT = rig)
    ∧ (∀ (sel : List (Transform × Bool)) (rig : PanOrbitCamera) (camT : Transform),
        anySelected sel = true →
          (center_selection true sel rig camT).focus = centroid sel
          ∧ (center_selection true sel rig camT).radius
              = Vec3.length (Vec3.sub camT.translation (centroid sel)))
    ∧ ((center_selection true [(demoA, true), (demoB, true)] demoRig demoCameraTf).focus
          = ⟨1, 0, 0⟩
        ∧ (center_selection true [(demoA, true), (demoB, true)] demoRig demoCameraTf).radius
          = 5) := by
  refine ⟨?_, ?_, ?_, ?_⟩
  · intro k sel rig camT h
    simp [center_selection, h]
  · intro sel rig camT h
    simp [center_selection, h]
  · norm_num [center_selection, anySelected, centroid, totalSelected, totalStep,
      countSelected, countStep, Vec3.divScalar, Vec3.zero, Vec3.add, Vec3.sub,
      demoA, demoB, demoCameraTf]
  · norm_num [center_selection, anySelected, centroid, totalSelected, totalStep,
      countSelected, countStep, Vec3.divScalar, Vec3.zero, Vec3.add, Vec3.sub,
      Vec3.length, Vec3.lengthSquared, Vec3.dot, demoA, demoB, demoCameraTf, ratSqrt,
      show Int.toNat 25 = 25 from by decide, show natSqrtFn 25 = 5 from by decide,
      show natSqrtFn 1 = 1 from by decide]

/-- C5 witness: the no-op on an empty selection, and the concrete focus. -/
theorem center_selection_spec_witness :
    center_selection true [] demoRig demoCameraTf = demoRig
    ∧ (center_selection true [(demoA, true), (demoB, true)] demoRig demoCameraTf).focus
        = ⟨1, 0, 0⟩ :=
  ⟨center_selection_spec.1 true [] demoRig demoCameraTf rfl,
   center_selection_spec.2.2.1⟩

/-- C6.  The upside_down flag is recomputed exactly when the orbit button
was pressed or released this frame (the edge flag is the disjunction of the
two transition queries); when recomputed it equals whether world-up rotated
by the frame's starting orientation has nonpositive y, and when the button
did not change state it keeps its previous value whatever the rest of the
frame does to the orientation. -/
theorem upside_down_edge_triggered (T : TrigModel) (winW winH : ℚ)
    (rm pan : Vec2) (scroll : ℚ) (chg : Bool) (rig : PanOrbitCamera)
    (tf : Transform) (proj : Projection) :
    (chg = false →
      (panOrbitRigStep T winW winH rm pan scroll chg rig tf proj).1.upside_down
        = rig.upside_down)
    ∧ (chg = true →
      (panOrbitRigStep T winW winH rm pan scroll chg rig tf proj).1.upside_down
        = decide ((Quat.mulVec3 tf.rotation Vec3.unitY).y ≤ 0))
    ∧ (∀ inp : FrameInput,
        orbitButtonChanged inp = (inp.middleJustReleased || inp.middleJustPressed)) := by
  refine ⟨?_, ?_, fun _ => rfl⟩
  · intro hc
    rw [step_upside, hc]
    simp [recomputeFlag]
  · intro hc
    rw [step_upside, hc]
    simp [recomputeFlag]

/-- C6 witness: the recompute at a concrete frame with the edge flag set. -/
theorem upside_down_edge_triggered_witness :
    (panOrbitRigStep demoTrig 2 1 ⟨0, 0⟩ ⟨0, 0⟩ 0 true demoRig demoCameraTf
        .Orthographic).1.upside_down
      = decide ((Quat.mulVec3 demoCameraTf.rotation Vec3.unitY).y ≤ 0) :=
  (upside_down_edge_triggered demoTrig 2 1 ⟨0, 0⟩ ⟨0, 0⟩ 0 true demoRig demoCameraTf
    .Orthographic).2.1 rfl

/-- C7.  In Global mode, whenever a selected object exists (whatever its
transform), the gizmo alignment is set to the identity rotation. -/
theorem global_alignment_identity (qm4 : Transform → Quat) (qm3 : Mat3 → Quat)
    (sel : List (Transform × Bool)) (gizmo : GizmoSettings)
    (cams : List Transform) (t : Transform)
    (h : firstSelected sel = some t) :
    (update_gizmo_space qm4 qm3 .Global sel gizmo cams).alignment_rotation
      = Quat.IDENTITY := by
  simp [update_gizmo_space, h]

/-- C7 witness: Global mode at a concrete selection and a non-identity
prior alignment. -/
theorem global_alignment_identity_witness :
    (update_gizmo_space demoQm4 demoQm3 .Global [(demoB, true)]
        ⟨⟨0, 1, 0, 0⟩⟩ []).alignment_rotation = Quat.IDENTITY :=
  global_alignment_identity demoQm4 demoQm3 [(demoB, true)] ⟨⟨0, 1, 0, 0⟩⟩ [] demoB rfl

/-- C8.  In Screen mode with a selected object and a single gizmo-pick
source camera, the alignment is the quaternion of the matrix whose columns
are local-z cross local-y, local-z, local-y of that camera (its local
forward-facing and up axes); with no such camera the settings are left
unchanged. -/
theorem screen_alignment (qm4 : Transform → Quat) (qm3 : Mat3 → Quat)
    (sel : List (Transform × Bool)) (gizmo : GizmoSettings)
    (cam : Transform) (t : Transform) :
    (firstSelected sel = some t →
      (update_gizmo_space qm4 qm3 .Screen sel gizmo [cam]).alignment_rotation
        = qm3 (Mat3.fromCols
            (Vec3.cross (Quat.mulVec3 cam.rotation Vec3.unitZ)
              (Quat.mulVec3 cam.rotation Vec3.unitY))
            (Quat.mulVec3 cam.rotation Vec3.unitZ)
            (Quat.mulVec3 cam.rotation Vec3.unitY)))
    ∧ (∀ (sel2 : List (Transform × Bool)) (giz2 : GizmoSettings),
        update_gizmo_space qm4 qm3 .Screen sel2 giz2 [] = giz2) := by
  constructor
  · intro h
    simp [update_gizmo_space, getSingle, h]
  · intro sel2 giz2
    simp [update_gizmo_space, getSingle]

/-- C8 witness: Screen mode at a concrete camera and selection. -/
theorem screen_alignment_witness :
    (update_gizmo_space demoQm4 demoQm3 .Screen [(demoB, true)]
        ⟨⟨0, 1, 0, 0⟩⟩ [demoCameraTf]).alignment_rotation
      = demoQm3 (Mat3.fromCols
          (Vec3.cross (Quat.mulVec3 demoCameraTf.rotation Vec3.unitZ)
            (Quat.mulVec3 demoCameraTf.rotation Vec3.unitY))
          (Quat.mulVec3 demoCameraTf.rotation Vec3.unitZ)
          (Quat.mulVec3 demoCameraTf.rotation Vec3.unitY)) :=
  (screen_alignment demoQm4 demoQm3 [(demoB, true)] ⟨⟨0, 1, 0, 0⟩⟩ demoCameraTf demoB).1 rfl

/-- C9.  On every invocation of the settings panel, the handle-visibility
flags are rederived from the handle-mode selection per the table
(Transform: arrows on and scale off; Scale: arrows off and scale on;
Neither: both off), while the rotate and translate_planes toggles come out
equal to whatever the user last set them to, untouched by the handle-mode
derivation. -/
theorem handle_flags_derived (data : CameraData) (enabled : GizmoPartsEnabled)
    (ui : UiInteraction) :
    (ui.showing = .Transform →
      (ui_system data enabled ui).2.translate_arrows = true
      ∧ (ui_system data enabled ui).2.scale = false)
    ∧ (ui.showing = .Scale →
      (ui_system data enabled ui).2.translate_arrows = false
      ∧ (ui_system data enabled ui).2.scale = true)
    ∧ (ui.showing = .Neither →
      (ui_system data enabled ui).2.translate_arrows = false
      ∧ (ui_system data enabled ui).2.scale = false)
    ∧ (ui_system data enabled ui).2.rotate = ui.rotate
    ∧ (ui_system data enabled ui).2.translate_planes = ui.translate_planes := by
  refine ⟨?_, ?_, ?_, ?_, ?_⟩ <;>
    first
      | (intro h; cases ui; simp_all [ui_system])
      | (cases hu : ui.showing <;> simp [ui_system, hu])

/-- C9 witness: Scale mode selected, with prior flags set oppositely. -/
theorem handle_flags_derived_witness :
    (ui_system ⟨.Global, .Transform⟩ ⟨true, false, true, false⟩
        ⟨.Local, .Scale, true, false⟩).2.translate_arrows = false
    ∧ (ui_system ⟨.Global, .Transform⟩ ⟨true, false, true, false⟩
        ⟨.Local, .Scale, true, false⟩).2.scale = true :=
  (handle_flags_derived ⟨.Global, .Transform⟩ ⟨true, false, true, false⟩
    ⟨.Local, .Scale, true, false⟩).2.1 rfl

/-- C10.  Whenever the guard of center_selection passes (some entry is
selected), the point count the centroid divides by is at least one, so the
divisor is nonzero. -/
theorem centroid_divisor_positive (sel : List (Transform × Bool))
    (h : anySelected sel = true) :
    1 ≤ countSelected sel ∧ ((countSelected sel : ℚ) ≠ 0) := by
  have h1 : 1 ≤ countSelected sel := by
    simpa [countSelected] using one_le_foldl_countStep sel 0 h
  refine ⟨h1, ?_⟩
  have h2 : countSelected sel ≠ 0 := by omega
  exact Nat.cast_ne_zero.mpr h2

/-- C10 witness: a concrete one-element selection. -/
theorem centroid_divisor_positive_witness :
    1 ≤ countSelected [(demoA, true)] ∧ ((countSelected [(demoA, true)] : ℚ) ≠ 0) :=
  centroid_divisor_positive [(demoA, true)] rfl
